import Mathlib

/-!
Shallow embedding of the PDF Genie service (`src/main.py`).

Python strings are modelled as lists of characters (`PyStr`), so that
`str.strip()`, slicing `s[:n]` and `len(s)` become the list operations
`pyStrip`, `List.take n` and `List.length`.  The two external dependencies
are modelled as oracle parameters:

* `PdfLib` models the PyPDF2 calls inside `extract_text_from_pdf`: parsing
  the byte stream either raises (an `Except.error` with the exception text)
  or yields the document's pages in order, where each page's
  `extract_text()` in turn either raises or returns that page's text;
* `GeminiClient` models `client.models.generate_content`: a call either
  raises or returns a response whose `.text` field is an optional string
  (`none` models a missing payload, `some []` an empty one; both are falsy
  in Python).

A raised `fastapi.HTTPException` is modelled as `Except.error` carrying an
`HTTPException` value.
-/

/-- A Python `str`, as its sequence of characters (code points). -/
abbrev PyStr := List Char

/-- A Python `bytes` value, as its sequence of byte values. -/
abbrev Bytes := List Nat

/-- Python `str.strip()`: remove leading and trailing whitespace. -/
def pyStrip (s : PyStr) : PyStr :=
  (s.dropWhile Char.isWhitespace).rdropWhile Char.isWhitespace

/-- `fastapi.HTTPException`: an HTTP status code together with a detail
message, raised to abort a request. -/
structure HTTPException where
  status_code : Nat
  detail : PyStr
deriving Repr, DecidableEq

/-- Oracle for the PyPDF2 library used by `extract_text_from_pdf`
(main.py lines 46-55): `PyPDF2.PdfReader` either raises or yields the
pages in document order; each page's `extract_text()` either raises or
returns text. -/
abbrev PdfLib := Bytes → Except PyStr (List (Except PyStr PyStr))

/-- Detail-message fragment of main.py line 60. -/
def extractErrPre : PyStr := "Error extracting text from PDF: ".data

/-- The page loop of `extract_text_from_pdf` (main.py lines 52-55):
`text_content += page.extract_text() + "\n"` over all pages, aborting as
soon as a page's extraction raises; the partial accumulator is discarded. -/
def pagesLoop : List (Except PyStr PyStr) → PyStr → Except PyStr PyStr
  | [], acc => Except.ok acc
  | Except.error e :: _, _ => Except.error e
  | Except.ok t :: rest, acc => pagesLoop rest (acc ++ t ++ ['\n'])

/-- `extract_text_from_pdf` (main.py lines 39-60): parse the bytes, collect
every page's text followed by a newline, strip the result; any exception is
re-raised as an HTTP 400 with the exception text embedded. -/
def extract_text_from_pdf (lib : PdfLib) (pdf_file : Bytes) :
    Except HTTPException PyStr :=
  match lib pdf_file with
  | Except.error e => Except.error ⟨400, extractErrPre ++ e⟩
  | Except.ok pages =>
    match pagesLoop pages [] with
    | Except.error e => Except.error ⟨400, extractErrPre ++ e⟩
    | Except.ok text_content => Except.ok (pyStrip text_content)

/-- The fixed persona directive of main.py lines 74-85. -/
def system_instruction : PyStr :=
  ("You are PDF Genie 🧞‍♂️ Your job is to turn boring PDFs (manuals, legal docs, "
    ++ "textbooks, policies, reports) into LENGTHY, hilarious, meme-style explainers that "
    ++ "anyone can understand. Make your responses LONG and DETAILED - users want to read "
    ++ "extensive, entertaining content! Break down concepts with lots of examples, analogies, "
    ++ "and stories. Use tons of emojis, bullet points, numbered lists, and humor. "
    ++ "Add pop culture references, internet slang, and memes throughout. Write like you're "
    ++ "telling a funny story to your best friend, not a formal report. Include multiple "
    ++ "sections, elaborate on details, and make it as entertaining as possible. "
    ++ "The longer and funnier, the better! Think of it like creating viral TikTok content "
    ++ "but in text form. Use headings, subheadings, and lots of formatting to make it engaging.").data

/-- The fixed text of the user prompt before the interpolated excerpt
(main.py lines 89-94). -/
def promptPreamble : PyStr :=
  ("Here's the content from a PDF that needs your magic touch! "
    ++ "Transform this into a LONG, entertaining explanation. "
    ++ "Make it extensive tons of examples, stories, and humor. "
    ++ "Users love reading long, funny content - so go wild with the details!\n\n"
    ++ "PDF CONTENT:\n").data

/-- The user prompt of main.py lines 89-95: the fixed preamble followed by
`pdf_text[:12000]`. -/
def user_prompt (pdf_text : PyStr) : PyStr :=
  promptPreamble ++ pdf_text.take 12000

/-- The argument record of the `client.models.generate_content` call
(main.py lines 99-109). -/
structure GenerateContentRequest where
  model : String
  contents : PyStr
  system_instruction : PyStr
  temperature : ℚ
  max_output_tokens : Nat

/-- Oracle for the Gemini client: a generation call either raises or
returns a response whose `.text` is an optional string. -/
abbrev GeminiClient := GenerateContentRequest → Except PyStr (Option PyStr)

/-- The request that `generate_meme_explanation` sends for a given
`pdf_text` (main.py lines 99-109). -/
def genRequest (pdf_text : PyStr) : GenerateContentRequest :=
  ⟨"gemini-2.5-flash", user_prompt pdf_text, system_instruction, 9 / 10, 2500⟩

/-- Detail-message fragment of main.py line 117. -/
def genErrPre : PyStr := "Error generating explanation: ".data

/-- Detail message produced when `response.text` is falsy: the inner
`Exception("Empty response from Gemini AI")` of main.py line 114 caught
and wrapped by line 117. -/
def emptyRespMsg : PyStr := genErrPre ++ "Empty response from Gemini AI".data

/-- `generate_meme_explanation` (main.py lines 62-117): send the prompt to
the model; return `response.text` when truthy, otherwise raise; every
exception becomes an HTTP 500 with the exception text embedded. -/
def generate_meme_explanation (client : GeminiClient) (pdf_text : PyStr) :
    Except HTTPException PyStr :=
  match client (genRequest pdf_text) with
  | Except.error e => Except.error ⟨500, genErrPre ++ e⟩
  | Except.ok none => Except.error ⟨500, emptyRespMsg⟩
  | Except.ok (some t) =>
    if t = [] then Except.error ⟨500, emptyRespMsg⟩ else Except.ok t

/-- The uploaded file as the handler sees it: declared filename, declared
content type (both optional in FastAPI) and the body bytes returned by
`await file.read()`. -/
structure UploadFile where
  filename : Option PyStr
  content_type : Option PyStr
  content : Bytes

/-- The JSON body shapes returned by `upload_pdf` with status 200:
main.py lines 164-167 and 175-180. -/
inductive UploadPayload where
  | noText (success : Bool) (message : PyStr)
  | explained (success : Bool) (explanation : PyStr) (original_length : Nat)
      (filename : Option PyStr)
deriving Repr, DecidableEq

/-- `fastapi.JSONResponse`: a status code and a JSON body. -/
structure JSONResponse where
  status_code : Nat
  content : UploadPayload
deriving Repr, DecidableEq

/-- Detail message of main.py lines 142-146. -/
def invalidTypeMsg : PyStr := "Invalid file type. Please upload a PDF file. 📄".data

/-- Detail message of main.py lines 150-154. -/
def tooLargeMsg : PyStr := "File too large. Please upload a PDF smaller than 10MB. 🚫".data

/-- Message of the insufficient-text payload, main.py line 166. -/
def insufficientMsg : PyStr :=
  ("Hmm, this PDF seems to be mostly images or has very little text. "
    ++ "🤔 PDF Genie works best with text-heavy documents!").data

/-- `upload_pdf` (main.py lines 129-191): validate content type and size,
extract, apply the 50-character sufficiency check, generate, respond.
`HTTPException`s raised by the two stages propagate unchanged (the
`except HTTPException: raise` of lines 183-185); the generic
`except Exception` of lines 186-191 is unreachable in this embedding
because both stages already map every failure to an `HTTPException`. -/
def upload_pdf (lib : PdfLib) (client : GeminiClient) (file : UploadFile) :
    Except HTTPException JSONResponse :=
  if file.content_type ≠ some "application/pdf".data then
    Except.error ⟨400, invalidTypeMsg⟩
  else if file.content.length > 10 * 1024 * 1024 then
    Except.error ⟨400, tooLargeMsg⟩
  else
    match extract_text_from_pdf lib file.content with
    | Except.error e => Except.error e
    | Except.ok pdf_text =>
      if pdf_text = [] ∨ (pyStrip pdf_text).length < 50 then
        Except.ok ⟨200, UploadPayload.noText false insufficientMsg⟩
      else
        match generate_meme_explanation client pdf_text with
        | Except.error e => Except.error e
        | Except.ok explanation =>
          Except.ok ⟨200,
            UploadPayload.explained true explanation pdf_text.length file.filename⟩

/-! ### Concrete fixtures used to exercise the pipeline -/

/-- Fixture: a PDF library whose single page extracts sixty letters. -/
def libOne : PdfLib := fun _ => Except.ok [Except.ok (List.replicate 60 'a')]

/-- Fixture: a PDF library with two short pages. -/
def libTwo : PdfLib := fun _ => Except.ok [Except.ok "hi".data, Except.ok "yo".data]

/-- Fixture: a PDF library whose second page raises. -/
def libErr : PdfLib := fun _ => Except.ok [Except.ok "hi".data, Except.error "boom".data]

/-- Fixture: a PDF library with one nearly empty page. -/
def libShort : PdfLib := fun _ => Except.ok [Except.ok "hi".data]

/-- Fixture: a client that answers every prompt with a short text. -/
def clientOk : GeminiClient := fun _ => Except.ok (some ['o', 'k'])

/-- Fixture: a client whose response carries no text payload. -/
def clientNone : GeminiClient := fun _ => Except.ok none

/-- Fixture: a client that always raises. -/
def clientErr : GeminiClient := fun _ => Except.error "down".data

/-- Fixture: a small well-typed upload. -/
def fileOne : UploadFile := ⟨some "doc.pdf".data, some "application/pdf".data, [37]⟩

/-- Fixture: an upload with a non-PDF content type. -/
def fileTxt : UploadFile := ⟨some "a.txt".data, some "text/plain".data, []⟩

/-- Fixture: a well-typed upload one byte over the 10 MiB limit. -/
def fileBig : UploadFile :=
  ⟨some "big.pdf".data, some "application/pdf".data,
    List.replicate (10 * 1024 * 1024 + 1) 0⟩

/-! ### Properties of `pyStrip` -/

/-- The first character surviving `dropWhile p` fails `p`. -/
theorem dropWhile_head_false (p : Char → Bool) (s : List Char) (c : Char)
    (cs : List Char) (h : List.dropWhile p s = c :: cs) : p c = false := by
  induction s with
  | nil => simp [List.dropWhile] at h
  | cons a s ih =>
    rw [List.dropWhile_cons] at h
    by_cases ha : p a
    · rw [if_pos ha] at h
      exact ih h
    · rw [if_neg ha] at h
      cases h
      simpa using ha

/-- `rdropWhile` keeps the head of a list whose head fails `p`. -/
theorem rdropWhile_cons_head (p : Char → Bool) (c : Char) (cs : List Char)
    (hc : p c = false) : ∃ ds, List.rdropWhile p (c :: cs) = c :: ds := by
  induction cs using List.reverseRecOn with
  | nil =>
    refine ⟨[], ?_⟩
    rw [List.rdropWhile_singleton, if_neg (by simp [hc])]
  | append_singleton l x ih =>
    by_cases hx : p x
    · obtain ⟨ds, hds⟩ := ih
      refine ⟨ds, ?_⟩
      rw [show c :: (l ++ [x]) = (c :: l) ++ [x] from rfl,
        List.rdropWhile_concat_pos _ _ _ hx, hds]
    · refine ⟨l ++ [x], ?_⟩
      rw [show c :: (l ++ [x]) = (c :: l) ++ [x] from rfl,
        List.rdropWhile_concat_neg _ _ _ hx]

/-- Dropping leading whitespace again after a right-strip of a left-stripped
list changes nothing. -/
theorem dropWhile_rdrop_self (p : Char → Bool) (s : List Char) :
    List.dropWhile p (List.rdropWhile p (List.dropWhile p s))
      = List.rdropWhile p (List.dropWhile p s) := by
  rcases hy : List.dropWhile p s with _ | ⟨c, cs⟩
  · simp
  · have hc := dropWhile_head_false p s c cs hy
    obtain ⟨ds, hds⟩ := rdropWhile_cons_head p c cs hc
    rw [hds, List.dropWhile_cons, if_neg (by simp [hc])]

/-- `pyStrip` is idempotent: stripping a stripped string changes nothing. -/
theorem pyStrip_idem (s : PyStr) : pyStrip (pyStrip s) = pyStrip s := by
  unfold pyStrip
  rw [dropWhile_rdrop_self, List.rdropWhile_idempotent]

/-- Whatever `extract_text_from_pdf` returns successfully is already
stripped. -/
theorem extract_ok_stripped (lib : PdfLib) (b : Bytes) (t : PyStr)
    (h : extract_text_from_pdf lib b = Except.ok t) : pyStrip t = t := by
  unfold extract_text_from_pdf at h
  split at h
  · exact absurd h (by simp)
  · split at h
    · exact absurd h (by simp)
    · cases h
      exact pyStrip_idem _

/-! ### Properties of the page loop -/

/-- When every page extracts successfully, the loop returns the accumulator
followed by the concatenation of each page's text and a newline. -/
theorem pagesLoop_all_ok (ts : List PyStr) (acc : PyStr) :
    pagesLoop (ts.map Except.ok) acc
      = Except.ok (acc ++ (ts.map (fun t => t ++ ['\n'])).flatten) := by
  induction ts generalizing acc with
  | nil => simp [pagesLoop]
  | cons t ts ih =>
    simp only [List.map_cons, pagesLoop, ih, List.flatten_cons, List.append_assoc]

/-- The loop aborts with the first page failure, discarding all text
accumulated before it. -/
theorem pagesLoop_first_error (ts : List PyStr) (e : PyStr)
    (rest : List (Except PyStr PyStr)) (acc : PyStr) :
    pagesLoop (ts.map Except.ok ++ Except.error e :: rest) acc
      = Except.error e := by
  induction ts generalizing acc with
  | nil => simp [pagesLoop]
  | cons t ts ih =>
    simp only [List.map_cons, List.cons_append, pagesLoop]
    exact ih _

/-! ### Shape of the errors each stage can produce -/

/-- Every error raised by `extract_text_from_pdf` is an HTTP 400 whose
detail embeds the underlying exception text after the fixed fragment. -/
theorem extract_error_detail (lib : PdfLib) (b : Bytes) (err : HTTPException)
    (h : extract_text_from_pdf lib b = Except.error err) :
    ∃ e, err = ⟨400, extractErrPre ++ e⟩ := by
  unfold extract_text_from_pdf at h
  split at h
  · exact ⟨_, (Except.error.inj h).symm⟩
  · split at h
    · exact ⟨_, (Except.error.inj h).symm⟩
    · exact absurd h (by simp)

/-- Every error raised by `generate_meme_explanation` carries status 500. -/
theorem generate_error_status (client : GeminiClient) (t : PyStr)
    (err : HTTPException)
    (h : generate_meme_explanation client t = Except.error err) :
    err.status_code = 500 := by
  unfold generate_meme_explanation at h
  split at h
  · cases h
    rfl
  · cases h
    rfl
  · split at h
    · cases h
      rfl
    · exact absurd h (by simp)

/-- An extraction-error detail never coincides with the size-limit
message (their first characters differ). -/
theorem extractErrPre_ne_tooLarge (e : PyStr) : extractErrPre ++ e ≠ tooLargeMsg := by
  intro h
  rw [show extractErrPre = 'E' :: "rror extracting text from PDF: ".data from rfl,
    List.cons_append,
    show tooLargeMsg
      = 'F' :: "ile too large. Please upload a PDF smaller than 10MB. 🚫".data from rfl] at h
  injection h with h1 h2
  exact absurd h1 (by decide)

/-- A string whose stripped form has fifty or more characters is not
empty. -/
theorem ne_nil_of_strip_long (t : PyStr) (hlen : 50 ≤ (pyStrip t).length) :
    t ≠ [] := by
  intro h
  subst h
  simp only [pyStrip, List.dropWhile_nil, List.rdropWhile_nil, List.length_nil] at hlen
  omega

/-- The sufficiency guard of main.py line 161 fails when the stripped text
has at least fifty characters. -/
theorem sufficiency_guard_false (t : PyStr) (hlen : 50 ≤ (pyStrip t).length) :
    ¬(t = [] ∨ (pyStrip t).length < 50) := by
  rintro (h | h)
  · exact ne_nil_of_strip_long t hlen h
  · omega

/-! ### Claim theorems -/

/-- C5: an upload whose declared content type is not exactly
`application/pdf` is rejected with HTTP 400 and the invalid-type message;
the result is the same for every PDF library and generation client, so
neither extraction nor generation is attempted. -/
theorem upload_rejects_bad_content_type (lib : PdfLib) (client : GeminiClient)
    (file : UploadFile)
    (hct : file.content_type ≠ some "application/pdf".data) :
    upload_pdf lib client file = Except.error ⟨400, invalidTypeMsg⟩ := by
  unfold upload_pdf
  rw [if_pos hct]

/-- Witness for C5: a `text/plain` upload is rejected as an invalid type. -/
theorem upload_rejects_bad_content_type_witness :
    fileTxt.content_type ≠ some "application/pdf".data ∧
    upload_pdf libOne clientOk fileTxt = Except.error ⟨400, invalidTypeMsg⟩ :=
  ⟨by decide, upload_rejects_bad_content_type libOne clientOk fileTxt (by decide)⟩

/-- C6: with the PDF content type, a body strictly larger than
10 MiB is rejected with HTTP 400 and the size message, for every PDF
library and generation client (so neither stage is attempted), while a
body of exactly 10 MiB is never rejected with the size message. -/
theorem upload_size_check (lib : PdfLib) (client : GeminiClient)
    (file : UploadFile)
    (hct : file.content_type = some "application/pdf".data) :
    (10 * 1024 * 1024 < file.content.length →
      upload_pdf lib client file = Except.error ⟨400, tooLargeMsg⟩) ∧
    (file.content.length = 10 * 1024 * 1024 →
      upload_pdf lib client file ≠ Except.error ⟨400, tooLargeMsg⟩) := by
  constructor
  · intro hlen
    unfold upload_pdf
    rw [if_neg (by simp [hct]), if_pos (by omega)]
  · intro hlen
    unfold upload_pdf
    rw [if_neg (by simp [hct]), if_neg (by omega)]
    split
    · next err heq =>
      obtain ⟨e, rfl⟩ := extract_error_detail _ _ _ heq
      intro hbad
      exact extractErrPre_ne_tooLarge e
        (congrArg HTTPException.detail (Except.error.inj hbad))
    · next t heq =>
      split
      · simp
      · split
        · next err heq2 =>
          intro hbad
          have h500 := generate_error_status _ _ _ heq2
          rw [congrArg HTTPException.status_code (Except.error.inj hbad)] at h500
          simp at h500
        · simp

/-- Witness for C6: an upload one byte over the limit is rejected with
the size message. -/
theorem upload_size_check_witness :
    fileBig.content_type = some "application/pdf".data ∧
    upload_pdf libOne clientOk fileBig = Except.error ⟨400, tooLargeMsg⟩ :=
  ⟨rfl, (upload_size_check libOne clientOk fileBig rfl).1
    (by rw [show fileBig.content = List.replicate (10 * 1024 * 1024 + 1) 0 from rfl,
      List.length_replicate]; omega)⟩

/-- C2: when the body passes validation and extraction succeeds but yields
an empty text, or one whose stripped form has fewer than fifty characters,
the endpoint answers HTTP 200 with `success := false` and the fixed
human-readable message; the result is the same for every generation
client, so the generation stage is never invoked. -/
theorem upload_insufficient_text (lib : PdfLib) (client : GeminiClient)
    (file : UploadFile) (t : PyStr)
    (hct : file.content_type = some "application/pdf".data)
    (hsize : file.content.length ≤ 10 * 1024 * 1024)
    (hex : extract_text_from_pdf lib file.content = Except.ok t)
    (hshort : t = [] ∨ (pyStrip t).length < 50) :
    upload_pdf lib client file
      = Except.ok ⟨200, UploadPayload.noText false insufficientMsg⟩ := by
  unfold upload_pdf
  rw [if_neg (by simp [hct]), if_neg (by omega)]
  simp only [hex]
  rw [if_pos hshort]

/-- Witness for C2: a two-character page produces the `success := false`
payload, with a client that would raise if it were ever consulted. -/
theorem upload_insufficient_text_witness :
    extract_text_from_pdf libShort [1] = Except.ok "hi".data ∧
    upload_pdf libShort clientErr ⟨some "s.pdf".data, some "application/pdf".data, [1]⟩
      = Except.ok ⟨200, UploadPayload.noText false insufficientMsg⟩ :=
  ⟨rfl, upload_insufficient_text libShort clientErr
    ⟨some "s.pdf".data, some "application/pdf".data, [1]⟩ "hi".data
    rfl (by decide) rfl (by decide)⟩

/-- C1: when the body passes validation, extraction succeeds with a text
whose stripped form has at least fifty characters, and the generation call
returns a non-empty payload, the endpoint answers HTTP 200 with
`success := true`, the generated explanation, an `original_length` equal
to the stripped extracted-text length, and the original filename. -/
theorem upload_success_response (lib : PdfLib) (client : GeminiClient)
    (file : UploadFile) (t expl : PyStr)
    (hct : file.content_type = some "application/pdf".data)
    (hsize : file.content.length ≤ 10 * 1024 * 1024)
    (hex : extract_text_from_pdf lib file.content = Except.ok t)
    (hlen : 50 ≤ (pyStrip t).length)
    (hgen : client (genRequest t) = Except.ok (some expl))
    (hne : expl ≠ []) :
    upload_pdf lib client file =
      Except.ok ⟨200, UploadPayload.explained true expl
        ((pyStrip t).length) file.filename⟩ := by
  have hst : pyStrip t = t := extract_ok_stripped lib file.content t hex
  unfold upload_pdf
  rw [if_neg (by simp [hct]), if_neg (by omega)]
  simp only [hex]
  rw [if_neg (sufficiency_guard_false t hlen)]
  unfold generate_meme_explanation
  simp only [hgen]
  rw [if_neg hne, hst]

/-- Witness for C1: a sixty-character page together with a client that
answers produces the full success payload. -/
theorem upload_success_response_witness :
    50 ≤ (pyStrip (List.replicate 60 'a')).length ∧
    upload_pdf libOne clientOk fileOne =
      Except.ok ⟨200, UploadPayload.explained true ['o', 'k']
        ((pyStrip (List.replicate 60 'a')).length) (some "doc.pdf".data)⟩ :=
  ⟨by decide, upload_success_response libOne clientOk fileOne
    (List.replicate 60 'a') ['o', 'k'] rfl (by decide) rfl (by decide) rfl (by decide)⟩

/-- C3: the prompt handed to the generation call is the fixed preamble
followed by exactly the first 12,000 characters of the extracted text,
so its length is bounded by the preamble plus 12,000; the cutoff is
silent, in that the whole generation stage behaves identically to being
given only the first 12,000 characters. -/
theorem generation_prompt_truncated (client : GeminiClient) (t : PyStr) :
    (genRequest t).contents = promptPreamble ++ t.take 12000 ∧
    (genRequest t).contents.length ≤ promptPreamble.length + 12000 ∧
    generate_meme_explanation client t
      = generate_meme_explanation client (t.take 12000) := by
  have h : genRequest (t.take 12000) = genRequest t := by
    unfold genRequest user_prompt
    rw [List.take_take, Nat.min_self]
  refine ⟨rfl, ?_, ?_⟩
  · simp only [genRequest, user_prompt, List.length_append, List.length_take]
    omega
  · unfold generate_meme_explanation
    rw [h]

/-- C4: once generation is reached (validation passed and extraction
produced at least fifty stripped characters), a generation call that
raises yields HTTP 500 embedding the raised message, and a missing or
empty payload yields HTTP 500 with the empty-response message — never a
success. -/
theorem upload_generation_failure (lib : PdfLib) (client : GeminiClient)
    (file : UploadFile) (t : PyStr)
    (hct : file.content_type = some "application/pdf".data)
    (hsize : file.content.length ≤ 10 * 1024 * 1024)
    (hex : extract_text_from_pdf lib file.content = Except.ok t)
    (hlen : 50 ≤ (pyStrip t).length) :
    (∀ e, client (genRequest t) = Except.error e →
      upload_pdf lib client file = Except.error ⟨500, genErrPre ++ e⟩) ∧
    (client (genRequest t) = Except.ok none →
      upload_pdf lib client file = Except.error ⟨500, emptyRespMsg⟩) ∧
    (client (genRequest t) = Except.ok (some []) →
      upload_pdf lib client file = Except.error ⟨500, emptyRespMsg⟩) := by
  have hred : upload_pdf lib client file =
      match generate_meme_explanation client t with
      | Except.error e => Except.error e
      | Except.ok explanation =>
        Except.ok ⟨200,
          UploadPayload.explained true explanation t.length file.filename⟩ := by
    unfold upload_pdf
    rw [if_neg (by simp [hct]), if_neg (by omega)]
    simp only [hex]
    rw [if_neg (sufficiency_guard_false t hlen)]
  refine ⟨?_, ?_, ?_⟩
  · intro e hgen
    rw [hred]
    unfold generate_meme_explanation
    simp only [hgen]
  · intro hgen
    rw [hred]
    unfold generate_meme_explanation
    simp only [hgen]
  · intro hgen
    rw [hred]
    unfold generate_meme_explanation
    simp [hgen]

/-- Witness for C4: a response with a missing payload turns a fully valid
upload into an HTTP 500. -/
theorem upload_generation_failure_witness :
    50 ≤ (pyStrip (List.replicate 60 'a')).length ∧
    upload_pdf libOne clientNone fileOne = Except.error ⟨500, emptyRespMsg⟩ :=
  ⟨by decide, (upload_generation_failure libOne clientNone fileOne
    (List.replicate 60 'a') rfl (by decide) rfl (by decide)).2.1 rfl⟩

/-- C7: when every page extracts successfully, the extractor returns the
page texts concatenated in document order, each followed by a newline,
with the final result stripped of leading and trailing whitespace. -/
theorem extract_pages_concatenated (lib : PdfLib) (b : Bytes) (ts : List PyStr)
    (h : lib b = Except.ok (ts.map Except.ok)) :
    extract_text_from_pdf lib b
      = Except.ok (pyStrip ((ts.map (fun t => t ++ ['\n'])).flatten)) := by
  unfold extract_text_from_pdf
  simp only [h, pagesLoop_all_ok, List.nil_append]

/-- Witness for C7: a two-page document yields both page texts in order,
newline-separated and stripped. -/
theorem extract_pages_concatenated_witness :
    libTwo [3] = Except.ok (["hi".data, "yo".data].map Except.ok) ∧
    extract_text_from_pdf libTwo [3]
      = Except.ok
          (pyStrip ((["hi".data, "yo".data].map (fun t => t ++ ['\n'])).flatten)) :=
  ⟨rfl, extract_pages_concatenated libTwo [3] ["hi".data, "yo".data] rfl⟩

/-- C8: extraction fails atomically with a single HTTP 400 embedding the
underlying cause — both when parsing raises and when the first failing
page raises after any number of successful pages, whose partial text is
discarded — and `upload_pdf` propagates the resulting error unchanged. -/
theorem extract_failure_atomic (lib : PdfLib) (client : GeminiClient)
    (file : UploadFile) :
    (∀ e, lib file.content = Except.error e →
      extract_text_from_pdf lib file.content
        = Except.error ⟨400, extractErrPre ++ e⟩) ∧
    (∀ (ts : List PyStr) (e : PyStr) (rest : List (Except PyStr PyStr)),
      lib file.content = Except.ok (ts.map Except.ok ++ Except.error e :: rest) →
      extract_text_from_pdf lib file.content
        = Except.error ⟨400, extractErrPre ++ e⟩) ∧
    (∀ err, file.content_type = some "application/pdf".data →
      file.content.length ≤ 10 * 1024 * 1024 →
      extract_text_from_pdf lib file.content = Except.error err →
      upload_pdf lib client file = Except.error err) := by
  refine ⟨?_, ?_, ?_⟩
  · intro e h
    unfold extract_text_from_pdf
    simp only [h]
  · intro ts e rest h
    unfold extract_text_from_pdf
    simp only [h, pagesLoop_first_error]
  · intro err hct hsize hex
    unfold upload_pdf
    rw [if_neg (by simp [hct]), if_neg (by omega)]
    simp only [hex]

/-- Witness for C8: a second-page fault aborts extraction — the first
page's text is discarded — and the endpoint surfaces the same HTTP 400. -/
theorem extract_failure_atomic_witness :
    libErr [5] = Except.ok (["hi".data].map Except.ok ++ Except.error "boom".data :: []) ∧
    upload_pdf libErr clientOk ⟨some "e.pdf".data, some "application/pdf".data, [5]⟩
      = Except.error ⟨400, extractErrPre ++ "boom".data⟩ := by
  have h := extract_failure_atomic libErr clientOk
    ⟨some "e.pdf".data, some "application/pdf".data, [5]⟩
  exact ⟨rfl, h.2.2 _ rfl (by decide) (h.2.1 ["hi".data] "boom".data [] rfl)⟩

/-- C9: the extractor is deterministic — it is a pure function of the
library oracle and the input bytes, with no state carried between calls
(mirroring that the source reads only its argument and locals), so two
calls on identical byte sequences return identical results. -/
theorem extract_deterministic (lib : PdfLib) (b₁ b₂ : Bytes) (h : b₁ = b₂) :
    extract_text_from_pdf lib b₁ = extract_text_from_pdf lib b₂ := by
  rw [h]

/-- Witness for C9: two extractions of the same concrete bytes agree. -/
theorem extract_deterministic_witness :
    ([37] : Bytes) = [37] ∧
    extract_text_from_pdf libOne [37] = extract_text_from_pdf libOne [37] :=
  ⟨rfl, extract_deterministic libOne [37] [37] rfl⟩

/-- C10: every full-success response reports an `original_length` of at
least fifty, and that length is simultaneously the length of the text
handed to generation and of its stripped form, because the extractor's
output is already stripped. -/
theorem upload_success_invariant (lib : PdfLib) (client : GeminiClient)
    (file : UploadFile) (s : Nat) (expl : PyStr) (n : Nat) (fn : Option PyStr)
    (h : upload_pdf lib client file
      = Except.ok ⟨s, UploadPayload.explained true expl n fn⟩) :
    50 ≤ n ∧ ∃ t, extract_text_from_pdf lib file.content = Except.ok t ∧
      pyStrip t = t ∧ n = t.length ∧ (pyStrip t).length = n := by
  unfold upload_pdf at h
  split at h
  · exact absurd h (by simp)
  · split at h
    · exact absurd h (by simp)
    · split at h
      · exact absurd h (by simp)
      · next t heq =>
        split at h
        · exact absurd h (by simp)
        · next hguard =>
          split at h
          · exact absurd h (by simp)
          · next ex heq2 =>
            have hst := extract_ok_stripped lib file.content t heq
            simp only [Except.ok.injEq, JSONResponse.mk.injEq,
              UploadPayload.explained.injEq, true_and] at h
            obtain ⟨hs, hexpl, hn, hfn⟩ := h
            push_neg at hguard
            have h50 : 50 ≤ (pyStrip t).length := by omega
            rw [hst] at h50
            exact ⟨by omega, t, heq, hst, hn.symm, by rw [hst]; omega⟩

/-- Witness for C10: the concrete success run reports sixty characters. -/
theorem upload_success_invariant_witness :
    50 ≤ 60 ∧ ∃ t, extract_text_from_pdf libOne fileOne.content = Except.ok t ∧
      pyStrip t = t ∧ 60 = t.length ∧ (pyStrip t).length = 60 :=
  upload_success_invariant libOne clientOk fileOne 200 ['o', 'k'] 60
    (some "doc.pdf".data) rfl
